import Mathlib

/-!
# Fork-server preload module (forksrv-preload.c)

A shallow embedding of `forksrv-preload.c`: the seccomp filter built by
`create_filter` together with an interpreter for the classic-BPF instructions
it uses, the input registry (`get_file_id`, `initialize_inputs`,
`is_input_name`), the fork server (`start_forkserver`, `write_reply`) and the
trap handler (`handle_sigsys`).

Conventions.  C `int` values are `Int`; 32-bit unsigned words of the filter
machine are `Int` values reduced with `% 2 ^ 32`.  Everything the program
obtains from its environment (the result of `stat`, of `read`, of `fork`, of
`waitpid`, of the re-executed system call) is an explicit argument, and
everything it does to its environment is recorded, in order, in a trace of
`Event`s.
-/

namespace ForkSrv

/-! ## Constants of the source and of the kernel headers it includes -/

/-- The macro `TO_SCM_MARK` (line 32). -/
def TO_SCM_MARK : String := "## FORKSERVER -> SCM ##"

/-- The macro `MARKER` (line 56). -/
def MARKER : Int := 0x12345678

/-- The macro `MAX_BPF_OPS` (line 58). -/
def MAX_BPF_OPS : Nat := 128

/-- The macro `MAX_INPUTS` (line 59). -/
def MAX_INPUTS : Nat := 1024

/-- File descriptor of standard output (`unistd.h`). -/
def STDOUT_FILENO : Nat := 1

/-- File descriptor of standard error (`unistd.h`). -/
def STDERR_FILENO : Nat := 2

/-- Instruction class `BPF_LD` (`linux/bpf_common.h`). -/
def BPF_LD : Nat := 0x00
/-- Operand size `BPF_W` (`linux/bpf_common.h`). -/
def BPF_W : Nat := 0x00
/-- Addressing mode `BPF_ABS` (`linux/bpf_common.h`). -/
def BPF_ABS : Nat := 0x20
/-- Instruction class `BPF_JMP` (`linux/bpf_common.h`). -/
def BPF_JMP : Nat := 0x05
/-- Jump condition `BPF_JEQ` (`linux/bpf_common.h`). -/
def BPF_JEQ : Nat := 0x10
/-- Operand source `BPF_K` (`linux/bpf_common.h`). -/
def BPF_K : Nat := 0x00
/-- Instruction class `BPF_RET` (`linux/bpf_common.h`). -/
def BPF_RET : Nat := 0x06

/-- Filter verdict `SECCOMP_RET_ALLOW` (`linux/seccomp.h`). -/
def SECCOMP_RET_ALLOW : Int := 0x7fff0000
/-- Filter verdict `SECCOMP_RET_TRAP` (`linux/seccomp.h`). -/
def SECCOMP_RET_TRAP : Int := 0x00030000

/-- The system-call numbers the source names.  Their values come from
`sys/syscall.h` and differ between the two supported architectures, so the
development takes them as a parameter. -/
structure SyscallNumbers where
  SYS_open : Int
  SYS_openat : Int
  SYS_stat : Int
  SYS_execve : Int
  SYS_execveat : Int
  SYS_fork : Int
  SYS_vfork : Int
  SYS_clone : Int
  deriving DecidableEq

/-- The numbers of the x86-64 system-call table. -/
def amd64_numbers : SyscallNumbers :=
  { SYS_open := 2, SYS_openat := 257, SYS_stat := 4, SYS_execve := 59,
    SYS_execveat := 322, SYS_fork := 57, SYS_vfork := 58, SYS_clone := 56 }

/-- The numbers of the 32-bit x86 system-call table. -/
def i386_numbers : SyscallNumbers :=
  { SYS_open := 5, SYS_openat := 295, SYS_stat := 106, SYS_execve := 11,
    SYS_execveat := 358, SYS_fork := 2, SYS_vfork := 190, SYS_clone := 120 }

/-- The array `inspected_syscalls` (lines 62-66). -/
def inspected_syscalls (t : SyscallNumbers) : List Int :=
  [t.SYS_open, t.SYS_openat, t.SYS_stat,
   t.SYS_execve, t.SYS_execveat,
   t.SYS_fork, t.SYS_vfork, t.SYS_clone]

/-- A value fits the C type `int`. -/
def is_int (x : Int) : Prop := -2 ^ 31 ≤ x ∧ x < 2 ^ 31

instance (x : Int) : Decidable (is_int x) := by unfold is_int; infer_instance

/-- The named system-call numbers are constants of type `int`. -/
def SyscallNumbers.ints (t : SyscallNumbers) : Prop :=
  ∀ x ∈ inspected_syscalls t, is_int x

instance (t : SyscallNumbers) : Decidable t.ints := by
  unfold SyscallNumbers.ints; infer_instance

/-- The named system-call numbers are pairwise different: they label the
cases of one `switch` statement. -/
def SyscallNumbers.distinct (t : SyscallNumbers) : Prop :=
  (inspected_syscalls t).Nodup

instance (t : SyscallNumbers) : Decidable t.distinct := by
  unfold SyscallNumbers.distinct; infer_instance

/-! ## The filter program -/

/-- The kernel type `struct sock_filter` (`linux/filter.h`): `code` is 16 bits
wide, `jt` and `jf` 8 bits, `k` 32 bits. -/
structure sock_filter where
  code : Nat
  jt : Nat
  jf : Nat
  k : Int
  deriving DecidableEq

/-- The initialiser macro `BPF_STMT(code, k)` (`linux/filter.h`). -/
def BPF_STMT (code : Nat) (k : Int) : sock_filter :=
  { code := code % 2 ^ 16, jt := 0, jf := 0, k := k % 2 ^ 32 }

/-- The initialiser macro `BPF_JUMP(code, k, jt, jf)` (`linux/filter.h`). -/
def BPF_JUMP (code : Nat) (k : Int) (jt jf : Nat) : sock_filter :=
  { code := code % 2 ^ 16, jt := jt % 2 ^ 8, jf := jf % 2 ^ 8, k := k % 2 ^ 32 }

/-- The kernel type `struct seccomp_data` (`linux/seccomp.h`): an `int`, a
32-bit word, a 64-bit word and six 64-bit arguments, 64 bytes in all. -/
structure seccomp_data where
  nr : Int
  arch : Nat
  instruction_pointer : Nat
  args : Fin 6 → Nat

/-- Byte offset `offsetof(struct seccomp_data, nr)`. -/
def offsetof_nr : Int := 0

/-- Byte offset `offsetof(struct seccomp_data, args[i])`. -/
def offsetof_args (i : Nat) : Int := 16 + 8 * i

/-- The low (`hi = false`) or high 32-bit half of a 64-bit value. -/
def half64 (v : Nat) (hi : Bool) : Int :=
  if hi then ((v / 2 ^ 32 % 2 ^ 32 : Nat) : Int) else ((v % 2 ^ 32 : Nat) : Int)

/-- The 32-bit word a `BPF_LD | BPF_W | BPF_ABS` instruction reads at byte
offset `off` of the system-call data, on a little-endian machine (both
supported architectures are); `none` when the offset is not a word of the
structure. -/
def load_word (d : seccomp_data) (off : Int) : Option Int :=
  if off = 0 then some (d.nr % 2 ^ 32)
  else if off = 4 then some ((d.arch % 2 ^ 32 : Nat) : Int)
  else if off = 8 then some (half64 d.instruction_pointer false)
  else if off = 12 then some (half64 d.instruction_pointer true)
  else if off = 16 then some (half64 (d.args 0) false)
  else if off = 20 then some (half64 (d.args 0) true)
  else if off = 24 then some (half64 (d.args 1) false)
  else if off = 28 then some (half64 (d.args 1) true)
  else if off = 32 then some (half64 (d.args 2) false)
  else if off = 36 then some (half64 (d.args 2) true)
  else if off = 40 then some (half64 (d.args 3) false)
  else if off = 44 then some (half64 (d.args 3) true)
  else if off = 48 then some (half64 (d.args 4) false)
  else if off = 52 then some (half64 (d.args 4) true)
  else if off = 56 then some (half64 (d.args 5) false)
  else if off = 60 then some (half64 (d.args 5) true)
  else none

/-- Run a filter from instruction `pc` with accumulator `A`.  Only the three
instructions `create_filter` emits are interpreted: load a word of the
system-call data, compare the accumulator with a constant and jump, return a
constant.  Jumps are relative to the next instruction and go forward only, so
`fuel` equal to the program length always suffices.  The result is the
returned verdict, or `none` for a program the kernel would have rejected
(an unknown instruction, a bad offset, running off the end). -/
def bpf_run (prog : List sock_filter) (d : seccomp_data) :
    Nat → Nat → Int → Option Int
  | 0, _, _ => none
  | fuel + 1, pc, A =>
    match prog.get? pc with
    | none => none
    | some ins =>
      if ins.code = BPF_LD ||| BPF_W ||| BPF_ABS then
        match load_word d ins.k with
        | none => none
        | some w => bpf_run prog d fuel (pc + 1) w
      else if ins.code = BPF_JMP ||| BPF_JEQ ||| BPF_K then
        if A = ins.k then bpf_run prog d fuel (pc + 1 + ins.jt) A
        else bpf_run prog d fuel (pc + 1 + ins.jf) A
      else if ins.code = BPF_RET ||| BPF_K then some ins.k
      else none

/-- The verdict of a filter on one system call. -/
def seccomp_run (prog : List sock_filter) (d : seccomp_data) : Option Int :=
  bpf_run prog d prog.length 0 0

/-- The loop of lines 266-272: entry `i` of the jump chain compares with
`inspected_syscalls[i]` and jumps to the trap exit when equal. -/
def fill_syscall_filter (syscall_jumps_start trap_exit_index : Nat) :
    List Int → Nat → List sock_filter → List sock_filter
  | [], _, filter => filter
  | sc :: rest, i, filter =>
    let ind := syscall_jumps_start + i
    fill_syscall_filter syscall_jumps_start trap_exit_index rest (i + 1)
      (filter.set ind
        (BPF_JUMP (BPF_JMP ||| BPF_JEQ ||| BPF_K) sc (trap_exit_index - (ind + 1)) 0))

/-- The function `create_filter` (lines 235-275): the zero-initialised array
of `MAX_BPF_OPS` instructions after all the stores, and the length written
through `length`. -/
def create_filter (t : SyscallNumbers) : List sock_filter × Nat :=
  let inspected_syscall_count := (inspected_syscalls t).length
  let filter := List.replicate MAX_BPF_OPS (⟨0, 0, 0, 0⟩ : sock_filter)
  let filter_length := 0
  let filter := filter.set filter_length
    (BPF_STMT (BPF_LD ||| BPF_W ||| BPF_ABS) (offsetof_args 5))
  let filter_length := filter_length + 1
  let reenter_test_index := filter_length
  let filter_length := filter_length + 1
  let filter := filter.set filter_length
    (BPF_STMT (BPF_LD ||| BPF_W ||| BPF_ABS) offsetof_nr)
  let filter_length := filter_length + 1
  let syscall_jumps_start := filter_length
  let filter_length := filter_length + inspected_syscall_count
  let allow_exit_index := filter_length
  let filter := filter.set filter_length
    (BPF_STMT (BPF_RET ||| BPF_K) SECCOMP_RET_ALLOW)
  let filter_length := filter_length + 1
  let trap_exit_index := filter_length
  let filter := filter.set filter_length
    (BPF_STMT (BPF_RET ||| BPF_K) SECCOMP_RET_TRAP)
  let filter_length := filter_length + 1
  let filter := filter.set reenter_test_index
    (BPF_JUMP (BPF_JMP ||| BPF_JEQ ||| BPF_K) MARKER
      (allow_exit_index - (reenter_test_index + 1)) 0)
  let filter := fill_syscall_filter syscall_jumps_start trap_exit_index
    (inspected_syscalls t) 0 filter
  (filter, filter_length)

/-- The program handed to the kernel by `initialize_signal_interceptor`
(line 282): the first `filter_length` instructions of the array. -/
def filter_program (t : SyscallNumbers) : List sock_filter :=
  (create_filter t).1.take (create_filter t).2

/-! ## The environment: C library and kernel -/

/-- The C library function `syscall` (`unistd.h`), as a function of the value
`raw` the kernel leaves in the return register: a value in `-4095 .. -1` is an
error number, which the function stores (negated) in `errno`, returning `-1`;
any other value is returned unchanged. -/
def libc_syscall (raw : Int) : Int :=
  if -4095 ≤ raw ∧ raw ≤ -1 then -1 else raw

/-- The conversion of a wider integer to the C type `int` (two's
complement wrap-around). -/
def to_int (x : Int) : Int := (x + 2 ^ 31) % 2 ^ 32 - 2 ^ 31

/-- The conversion of an integer to the C type `signed char`. -/
def to_signed_char (x : Int) : Int := (x + 2 ^ 7) % 2 ^ 8 - 2 ^ 7

/-- The macro `WTERMSIG(status)` of the GNU C library
(`bits/waitstatus.h`): `status & 0x7f`. -/
def WTERMSIG (status : Nat) : Nat := status &&& 0x7f

/-- The macro `WEXITSTATUS(status)` of the GNU C library:
`(status & 0xff00) >> 8`. -/
def WEXITSTATUS (status : Nat) : Nat := (status &&& 0xff00) >>> 8

/-- The macro `WIFEXITED(status)` of the GNU C library:
`WTERMSIG(status) == 0`. -/
def WIFEXITED (status : Nat) : Bool := WTERMSIG status == 0

/-- The macro `WIFSIGNALED(status)` of the GNU C library:
`((signed char) ((status & 0x7f) + 1) >> 1) > 0`. -/
def WIFSIGNALED (status : Nat) : Bool :=
  decide (0 < to_signed_char (((status &&& 0x7f) + 1 : Nat) : Int) >>> 1)

/-- The text `sprintf(buf, "%d", x)` stores in `buf`. -/
def sprintf_d (x : Int) : String := Int.repr x

/-- What the program does to its environment, one entry per call. -/
inductive Event where
  /-- The call `write(fd, message, len)` made by `print`, `len` being the
  length of `message`. -/
  | write (fd : Nat) (message : String)
  /-- A call `fprintf(stderr, format, args...)`. -/
  | fprintf (format : String) (args : List Int)
  /-- A call `perror(s)`. -/
  | perror (s : String)
  /-- The call `syscall(SYS_stat, name, &statbuf, 0, 0, 0, MARKER)`. -/
  | stat (name : Int) (a3 a4 a5 a6 : Int)
  /-- Any other call `syscall(nr, a1, a2, a3, a4, a5, a6)`. -/
  | syscall (nr : Int) (a1 a2 a3 a4 a5 a6 : Int)
  /-- The call `read(STDIN_FILENO, &ch, 1)` and the value it returned. -/
  | read (ret : Int)
  /-- The call `setrlimit(RLIMIT_CPU, &rlim)` with both limits `lim`. -/
  | setrlimit (lim : Int)
  /-- The call `signal(SIGALRM, sigalrm_handler)`. -/
  | signal
  /-- The call `alarm(seconds)`. -/
  | alarm (seconds : Int)
  /-- The call `waitpid(pid, &status, 0)`. -/
  | waitpid (pid : Int)
  /-- A failed `assert(expr)`: the diagnostic it prints on standard error. -/
  | assert_fail (expr : String)
  /-- The call `abort()`. -/
  | abort
  deriving DecidableEq

/-- The mutable state of one process: the static variable `started` of
`start_forkserver` and the trace of what the process has done so far, oldest
entry first. -/
structure World where
  started : Bool
  trace : List Event
  deriving DecidableEq

/-- Append entries to the trace. -/
def World.emit (w : World) (es : List Event) : World :=
  { w with trace := w.trace ++ es }

/-- How a C function ends: it returns a value, or the process is aborted
inside it. -/
inductive Outcome (α : Type) where
  | returned (val : α) (w : World)
  | aborted (w : World)

/-- The world an outcome leaves behind. -/
def Outcome.world {α : Type} : Outcome α → World
  | .returned _ w => w
  | .aborted w => w

/-- Everything written to file descriptor `fd` with `write`, concatenated in
order. -/
def written (fd : Nat) : List Event → String
  | [] => ""
  | Event.write fd1 message :: rest =>
    if fd1 = fd then message ++ written fd rest else written fd rest
  | _ :: rest => written fd rest

/-- The reply frame with body `body` as it appears on standard output. -/
def frame (body : String) : String := TO_SCM_MARK ++ body ++ "\n"

/-- The frames of a list of bodies, one after the other. -/
def frames : List String → String
  | [] => ""
  | body :: rest => frame body ++ frames rest

/-- The calls `syscall(SYS_fork, 0, 0, 0, 0, 0, MARKER)` in a trace. -/
def fork_calls (t : SyscallNumbers) (tr : List Event) : Nat :=
  tr.count (Event.syscall t.SYS_fork 0 0 0 0 0 MARKER)

/-! ## The input registry -/

/-- The type `struct file_id` (lines 68-71). -/
structure file_id where
  dev : Nat
  inode : Nat
  deriving DecidableEq

/-- What the kernel answers to a `stat` system call: the raw value of the
return register and, for a successful call, the fields `st_dev` and `st_ino`
it stored in the buffer. -/
structure StatAnswer where
  raw : Int
  st_dev : Nat
  st_ino : Nat

/-- The file system as the program sees it: the answer to `stat` for each
path (a path is given by the value of the pointer to it). -/
abbrev FileSystem := Int → StatAnswer

/-- The value of `ret` in `get_file_id` (line 83): the result of the C
library call, converted to `int`. -/
def stat_ret (fs : FileSystem) (name : Int) : Int :=
  to_int (libc_syscall (fs name).raw)

/-- The function `get_file_id` (lines 77-98). -/
def get_file_id (fs : FileSystem) (name : Int) (force : Bool) (w : World) :
    Outcome file_id :=
  let ret := stat_ret fs name
  let w := w.emit [Event.stat name 0 0 0 MARKER]
  if ret = 0 then
    .returned { dev := (fs name).st_dev, inode := (fs name).st_ino } w
  else
    let w := w.emit [Event.fprintf "Cannot stat: error %d\n" [ret]]
    if force then .aborted (w.emit [Event.abort])
    else .returned { dev := 0, inode := 0 } w

/-- The loop of `is_input_name` (lines 184-189) over the first
`input_id_count` entries of `input_ids`. -/
def scan_input_ids : List file_id → file_id → Bool
  | [], _ => false
  | e :: rest, id =>
    if e.dev = id.dev ∧ e.inode = id.inode then true else scan_input_ids rest id

/-- The function `is_input_name` (lines 181-190); `input_ids` holds the first
`input_id_count` entries of the array of that name. -/
def is_input_name (input_ids : List file_id) (fs : FileSystem) (name : Int)
    (w : World) : Outcome Bool :=
  match get_file_id fs name false w with
  | .aborted w1 => .aborted w1
  | .returned id w1 => .returned (scan_input_ids input_ids id) w1

/-- The loop of `initialize_inputs` (lines 303-312), entered with
`fuel = MAX_INPUTS - input_id_count`; `getenv k` is the value of the
environment variable `__SCM_INPUT_k`, and `ids` the entries stored so far. -/
def initialize_inputs_loop (getenv : Nat → Option Int) (fs : FileSystem) :
    Nat → Nat → List file_id → World → Outcome (List file_id)
  | 0, _, ids, w => .returned ids w
  | fuel + 1, input_id_count, ids, w =>
    match getenv input_id_count with
    | none => .returned ids w
    | some file_name =>
      let w := w.emit
        [Event.fprintf "Fetched input name #%d: %s\n" [input_id_count, file_name]]
      match get_file_id fs file_name true w with
      | .aborted w1 => .aborted w1
      | .returned id w1 =>
        initialize_inputs_loop getenv fs fuel (input_id_count + 1) (ids ++ [id]) w1

/-- The function `initialize_inputs` (lines 300-313): the registry it leaves
in `input_ids[0 .. input_id_count)`. -/
def initialize_inputs (getenv : Nat → Option Int) (fs : FileSystem) (w : World) :
    Outcome (List file_id) :=
  initialize_inputs_loop getenv fs MAX_INPUTS 0 [] w

/-! ## The fork server -/

/-- The function `print` (lines 101-106): one `write` of the whole message. -/
def print (fd : Nat) (message : String) (w : World) : World :=
  w.emit [Event.write fd message]

/-- The function `write_reply` (lines 108-116). -/
def write_reply (reply : String) (w : World) : World :=
  let w := print STDOUT_FILENO TO_SCM_MARK w
  let w := print STDOUT_FILENO reply w
  let w := print STDOUT_FILENO "\n" w
  print STDERR_FILENO (TO_SCM_MARK ++ "\n") w

/-- What the environment answers during one iteration of the command loop
in which `read` delivered a byte: the byte, the raw result of the `fork`
system call in this process, the result of `setrlimit` (used in the child
only), and the result of `waitpid` with the status it stored (used in the
parent only). -/
structure Iteration where
  ch : Nat
  fork_raw : Int
  setrlimit_ret : Int
  waitpid_ret : Int
  status : Nat

/-- The banner of line 134. -/
def banner : String := "Initializing fork server...\n"

/-- The child branch of the command loop (lines 146-156): `setrlimit`, the
assertion on its result, `signal`, `alarm`, and the `return`. -/
def child_branch (fork_child_timeout : Int) (it : Iteration) (w : World) :
    Outcome Unit :=
  let ret := it.setrlimit_ret
  let w := w.emit [Event.setrlimit fork_child_timeout]
  if ret = 0 then
    .returned () (w.emit [Event.signal, Event.alarm fork_child_timeout])
  else .aborted (w.emit [Event.assert_fail "ret == 0", Event.abort])

/-- The parent branch of the command loop (lines 159-177): `waitpid`, the
exit code, the reply.  It returns when the loop goes on to its next
iteration. -/
def parent_branch (pid : Int) (it : Iteration) (w : World) : Outcome Unit :=
  let status := it.status
  let ret := it.waitpid_ret
  let w := w.emit [Event.waitpid pid]
  if ret < 0 then .aborted (w.emit [Event.perror "waitpid", Event.abort])
  else if WIFEXITED status then
    let exit_code : Int := WEXITSTATUS status
    .returned () (write_reply (sprintf_d exit_code) w)
  else if WIFSIGNALED status then
    let exit_code : Int := WTERMSIG status
    .returned () (write_reply (sprintf_d exit_code) w)
  else
    .aborted (w.emit
      [Event.fprintf "waitpid: unknown status %d\n" [status], Event.abort])

/-- The command loop of `start_forkserver` (lines 138-178).  Each element of
the list is one iteration in which `read` returned 1; when the list is used
up standard input is at its end, `read` returns 0 and the assertion of line
141 fails. -/
def forkserver_loop (t : SyscallNumbers) (fork_child_timeout : Int) :
    List Iteration → World → Outcome Unit
  | [], w =>
    .aborted (w.emit [Event.read 0,
      Event.assert_fail "read(STDIN_FILENO, &ch, 1) == 1", Event.abort])
  | it :: rest, w =>
    let w := w.emit [Event.read 1]
    let pid := to_int (libc_syscall it.fork_raw)
    let w := w.emit [Event.syscall t.SYS_fork 0 0 0 0 0 MARKER]
    if pid = 0 then child_branch fork_child_timeout it w
    else
      match parent_branch pid it w with
      | .aborted w1 => .aborted w1
      | .returned _ w1 => forkserver_loop t fork_child_timeout rest w1

/-- The function `start_forkserver` (lines 124-179). -/
def start_forkserver (t : SyscallNumbers) (fork_child_timeout : Int)
    (iters : List Iteration) (w : World) : Outcome Unit :=
  if w.started then .returned () w
  else
    let w := { w with started := true }
    let w := print STDERR_FILENO banner w
    let w := write_reply "INIT" w
    forkserver_loop t fork_child_timeout iters w

/-! ## The trap handler -/

/-- The two architectures the source supports (lines 34-54). -/
inductive Arch where
  | i386
  | amd64
  deriving DecidableEq

/-- The general registers the source names. -/
inductive Reg where
  | REG_EAX | REG_EBX | REG_ECX | REG_EDX | REG_ESI | REG_EDI | REG_EBP
  | REG_RAX | REG_RDI | REG_RSI | REG_RDX | REG_R10 | REG_R8 | REG_R9
  deriving DecidableEq

/-- The macro `SC_NUM_REG`. -/
def SC_NUM_REG : Arch → Reg
  | .i386 => .REG_EAX
  | .amd64 => .REG_RAX

/-- The macro `ARG_REG_1`. -/
def ARG_REG_1 : Arch → Reg
  | .i386 => .REG_EBX
  | .amd64 => .REG_RDI

/-- The macro `ARG_REG_2`. -/
def ARG_REG_2 : Arch → Reg
  | .i386 => .REG_ECX
  | .amd64 => .REG_RSI

/-- The macro `ARG_REG_3`. -/
def ARG_REG_3 : Arch → Reg
  | .i386 => .REG_EDX
  | .amd64 => .REG_RDX

/-- The macro `ARG_REG_4`. -/
def ARG_REG_4 : Arch → Reg
  | .i386 => .REG_ESI
  | .amd64 => .REG_R10

/-- The macro `ARG_REG_5`. -/
def ARG_REG_5 : Arch → Reg
  | .i386 => .REG_EDI
  | .amd64 => .REG_R8

/-- The macro `ARG_REG_6`. -/
def ARG_REG_6 : Arch → Reg
  | .i386 => .REG_EBP
  | .amd64 => .REG_R9

/-- The macro `RET_REG_1`. -/
def RET_REG_1 : Arch → Reg
  | .i386 => .REG_EAX
  | .amd64 => .REG_RAX

/-- The register array `ctx->uc_mcontext.gregs` of the trapping context. -/
abbrev Gregs := Reg → Int

/-- The arms of the `switch` of `handle_sigsys` (lines 197-229). -/
inductive Arm where
  | case_open
  | case_openat
  | case_stat
  | case_exec
  | case_spawn
  | default_arm
  deriving DecidableEq

/-- The arm the `switch (sc_num)` of `handle_sigsys` selects. -/
def switch_arm (t : SyscallNumbers) (sc_num : Int) : Arm :=
  if sc_num = t.SYS_open then .case_open
  else if sc_num = t.SYS_openat then .case_openat
  else if sc_num = t.SYS_stat then .case_stat
  else if sc_num = t.SYS_execve ∨ sc_num = t.SYS_execveat then .case_exec
  else if sc_num = t.SYS_fork ∨ sc_num = t.SYS_vfork ∨ sc_num = t.SYS_clone then
    .case_spawn
  else .default_arm

/-- The kernel executing a system call that the filter allows: the raw value
it leaves in the return register, as a function of the number and the six
arguments. -/
abbrev Kernel := Int → Int → Int → Int → Int → Int → Int → Int

/-- What stays fixed after load time: the system-call numbers, the
architecture, the registry `input_ids[0 .. input_id_count)` and
`fork_child_timeout`. -/
structure Config where
  t : SyscallNumbers
  arch : Arch
  input_ids : List file_id
  fork_child_timeout : Int

/-- What the environment answers during one run of the handler: the file
system, the iterations of the command loop should the fork server start, and
the kernel for the re-executed system call. -/
structure TrapEnv where
  fs : FileSystem
  iters : List Iteration
  kernel : Kernel

/-- The part of a `case` that tests the path and starts the fork server
(lines 199-202, 205-208, 211-214). -/
def trigger_check (c : Config) (env : TrapEnv) (format : String) (name : Int)
    (w : World) : Outcome Unit :=
  match is_input_name c.input_ids env.fs name w with
  | .aborted w1 => .aborted w1
  | .returned b w1 =>
    if b then
      start_forkserver c.t c.fork_child_timeout env.iters
        (w1.emit [Event.fprintf format [name]])
    else .returned () w1

/-- The `switch` statement of `handle_sigsys` (lines 197-229). -/
def handle_switch (c : Config) (env : TrapEnv) (gregs : Gregs) (sc_num : Int)
    (w : World) : Outcome Unit :=
  match switch_arm c.t sc_num with
  | .case_open =>
    trigger_check c env "Opening %s, starting fork server.\n" (gregs (ARG_REG_1 c.arch)) w
  | .case_openat =>
    trigger_check c env "Opening %s, starting fork server.\n" (gregs (ARG_REG_2 c.arch)) w
  | .case_stat =>
    trigger_check c env "Calling stat() on %s, starting fork server\n"
      (gregs (ARG_REG_1 c.arch)) w
  | .case_exec =>
    .aborted (w.emit
      [Event.fprintf "Process is trying to call exec(...), exiting.\n" [], Event.abort])
  | .case_spawn =>
    .aborted (w.emit
      [Event.fprintf "Process is trying to spawn a thread or a subprocess, exiting.\n" [],
       Event.abort])
  | .default_arm => start_forkserver c.t c.fork_child_timeout env.iters w

/-- The function `handle_sigsys` (lines 192-233): the register array it
leaves in the trapping context. -/
def handle_sigsys (c : Config) (env : TrapEnv) (gregs : Gregs) (w : World) :
    Outcome Gregs :=
  let sc_num := to_int (gregs (SC_NUM_REG c.arch))
  match handle_switch c env gregs sc_num w with
  | .aborted w1 => .aborted w1
  | .returned _ w1 =>
    let a1 := gregs (ARG_REG_1 c.arch)
    let a2 := gregs (ARG_REG_2 c.arch)
    let a3 := gregs (ARG_REG_3 c.arch)
    let a4 := gregs (ARG_REG_4 c.arch)
    let a5 := gregs (ARG_REG_5 c.arch)
    let result := libc_syscall (env.kernel sc_num a1 a2 a3 a4 a5 MARKER)
    .returned (Function.update gregs (RET_REG_1 c.arch) result)
      (w1.emit [Event.syscall sc_num a1 a2 a3 a4 a5 MARKER])

/-- One trap of a process: the registers of the trapping context and the
answers of the environment while the handler runs. -/
structure Trap where
  gregs : Gregs
  env : TrapEnv

/-- The handler invocations of one process, in order: each trap runs
`handle_sigsys` on the world the previous one left, and an abort ends the
process. -/
def run_traps (c : Config) : List Trap → World → World
  | [], w => w
  | tp :: rest, w =>
    match handle_sigsys c tp.env tp.gregs w with
    | .aborted w1 => w1
    | .returned _ w1 => run_traps c rest w1

/-! ## Definitions used to state the properties -/

/-- The value an outcome returns, if it returns. -/
def Outcome.val? {α : Type} : Outcome α → Option α
  | .returned v _ => some v
  | .aborted _ => none

/-- An environment with the single variable `__SCM_INPUT_0`, pointing at the
path at address 100. -/
def sample_getenv : Nat → Option Int := fun k => if k = 0 then some 100 else none

/-- A file system in which the path at address 100 is the file with device 8
and inode 42, and no other path exists (`stat` fails with `ENOENT`). -/
def sample_fs : FileSystem := fun name => if name = 100 then ⟨0, 8, 42⟩ else ⟨-2, 0, 0⟩

/-- No file has device number 0 together with inode number 0: a `stat` that
succeeds never answers the pair `get_file_id` uses for a path it could not
resolve. -/
def real_identities (fs : FileSystem) : Prop :=
  ∀ name, stat_ret fs name = 0 → ¬ ((fs name).st_dev = 0 ∧ (fs name).st_ino = 0)

/-- A kernel in which every system call fails with `ENOENT`. -/
def enoent_kernel : Kernel := fun _ _ _ _ _ _ _ => -2

/-- A configuration for x86-64 with the registry of `sample_fs`. -/
def sample_config : Config :=
  { t := amd64_numbers, arch := .amd64, input_ids := [⟨8, 42⟩], fork_child_timeout := 5 }

/-- The registers of an x86-64 context trapping in system call `nr` with
first and second arguments `a1` and `a2`. -/
def sample_gregs (nr a1 a2 : Int) : Gregs := fun r =>
  match r with
  | .REG_RAX => nr
  | .REG_RDI => a1
  | .REG_RSI => a2
  | _ => 0

/-- An environment of the handler: `sample_fs`, one command after which
`fork` returns 0 (the run continues in the child), and `enoent_kernel`. -/
def sample_env : TrapEnv :=
  { fs := sample_fs, iters := [⟨10, 0, 0, 0, 0⟩], kernel := enoent_kernel }

/-- A thousand commands, after each of which the process is the parent of a
child that exits with code 0. -/
def thousand_commands : List Iteration := List.replicate 1000 ⟨10, 4321, 0, 4321, 0⟩

/-- The register holding the path in the cases `SYS_open`, `SYS_openat` and
`SYS_stat` of `handle_sigsys`. -/
def path_register (c : Config) (sc_num : Int) : Reg :=
  if sc_num = c.t.SYS_open then ARG_REG_1 c.arch
  else if sc_num = c.t.SYS_openat then ARG_REG_2 c.arch
  else ARG_REG_1 c.arch

/-- A data record for system call `nr` with sixth argument `a6`. -/
def sample_data (nr : Int) (a6 : Nat) : seccomp_data :=
  { nr := nr, arch := 0xc000003e, instruction_pointer := 0x7f0000001000,
    args := fun i => if i = 5 then a6 else 0 }

/-- The four `write` calls of `write_reply`. -/
def reply_events (body : String) : List Event :=
  [Event.write STDOUT_FILENO TO_SCM_MARK, Event.write STDOUT_FILENO body,
   Event.write STDOUT_FILENO "\n", Event.write STDERR_FILENO (TO_SCM_MARK ++ "\n")]

/-- The exit code lines 167-174 compute for a status that is reported. -/
def reported_code (status : Nat) : Int :=
  if WIFEXITED status then (WEXITSTATUS status : Int) else (WTERMSIG status : Int)

/-- An iteration runs in the parent: `fork` did not return 0, `waitpid`
succeeded, and the status is one the parent reports. -/
def Iteration.reportable (it : Iteration) : Prop :=
  to_int (libc_syscall it.fork_raw) ≠ 0 ∧ 0 ≤ it.waitpid_ret ∧
    (WIFEXITED it.status = true ∨ WIFSIGNALED it.status = true)

instance (it : Iteration) : Decidable it.reportable := by
  unfold Iteration.reportable; infer_instance

/-- The body of the reply to one iteration. -/
def reply_body (it : Iteration) : String := sprintf_d (reported_code it.status)

/-- The writes of the banner (line 134) in a trace. -/
def banner_writes (tr : List Event) : Nat :=
  tr.count (Event.write STDERR_FILENO banner)

/-- The writes of the body `INIT` to standard output in a trace. -/
def init_writes (tr : List Event) : Nat :=
  tr.count (Event.write STDOUT_FILENO "INIT")

/-- A list of events with no banner and no `INIT` body. -/
def quiet (es : List Event) : Prop := banner_writes es = 0 ∧ init_writes es = 0

/-- Between two worlds the flag and the two counts are unchanged. -/
def same (w w1 : World) : Prop :=
  w1.started = w.started ∧ banner_writes w1.trace = banner_writes w.trace ∧
    init_writes w1.trace = init_writes w.trace

/-- Between two worlds either nothing changed, or the flag went from false to
true and each count grew by one. -/
def once (w w1 : World) : Prop :=
  same w w1 ∨ (w.started = false ∧ w1.started = true ∧
    banner_writes w1.trace = banner_writes w.trace + 1 ∧
    init_writes w1.trace = init_writes w.trace + 1)

/-- The flag is false only while neither the banner nor `INIT` has been
written, and each has been written at most once. -/
def started_inv (w : World) : Prop :=
  (w.started = false → banner_writes w.trace = 0 ∧ init_writes w.trace = 0) ∧
    banner_writes w.trace ≤ 1 ∧ init_writes w.trace ≤ 1

/-! # Theorems -/

set_option maxRecDepth 100000

/-! ## The filter: layout and verdict -/

/-- The thirteen instructions `create_filter` lays out, for any system-call
numbers. -/
theorem filter_program_eq (t : SyscallNumbers) :
    filter_program t =
      [⟨0x20, 0, 0, 56⟩, ⟨0x15, 9, 0, 0x12345678⟩, ⟨0x20, 0, 0, 0⟩,
       ⟨0x15, 8, 0, t.SYS_open % 2 ^ 32⟩, ⟨0x15, 7, 0, t.SYS_openat % 2 ^ 32⟩,
       ⟨0x15, 6, 0, t.SYS_stat % 2 ^ 32⟩, ⟨0x15, 5, 0, t.SYS_execve % 2 ^ 32⟩,
       ⟨0x15, 4, 0, t.SYS_execveat % 2 ^ 32⟩, ⟨0x15, 3, 0, t.SYS_fork % 2 ^ 32⟩,
       ⟨0x15, 2, 0, t.SYS_vfork % 2 ^ 32⟩, ⟨0x15, 1, 0, t.SYS_clone % 2 ^ 32⟩,
       ⟨0x06, 0, 0, 0x7fff0000⟩, ⟨0x06, 0, 0, 0x00030000⟩] := rfl

/-- The length `create_filter` reports stays below `MAX_BPF_OPS`, as the
assertion of line 257 demands. -/
theorem create_filter_length (t : SyscallNumbers) :
    (create_filter t).2 = 13 ∧ (create_filter t).2 < MAX_BPF_OPS :=
  ⟨rfl, by show (13 : Nat) < 128; decide⟩

theorem bpf_run_ld (prog : List sock_filter) (d : seccomp_data) (fuel pc : Nat) (A : Int)
    (k w : Int) (h : prog.get? pc = some ⟨0x20, 0, 0, k⟩) (hw : load_word d k = some w) :
    bpf_run prog d (fuel + 1) pc A = bpf_run prog d fuel (pc + 1) w := by
  rw [bpf_run, h]
  simp only [hw]
  rfl

theorem bpf_run_jeq (prog : List sock_filter) (d : seccomp_data) (fuel pc : Nat) (A : Int)
    (k : Int) (jt : Nat) (h : prog.get? pc = some ⟨0x15, jt, 0, k⟩) :
    bpf_run prog d (fuel + 1) pc A =
      if A = k then bpf_run prog d fuel (pc + 1 + jt) A
      else bpf_run prog d fuel (pc + 1) A := by
  rw [bpf_run, h]
  rfl

theorem bpf_run_ret (prog : List sock_filter) (d : seccomp_data) (fuel pc : Nat) (A : Int)
    (k : Int) (h : prog.get? pc = some ⟨0x06, 0, 0, k⟩) :
    bpf_run prog d (fuel + 1) pc A = some k := by
  rw [bpf_run, h]
  rfl

/-- Two `int` values with the same 32-bit pattern are equal. -/
theorem wrap_inj (a b : Int) (ha : is_int a) (hb : is_int b) :
    a % 2 ^ 32 = b % 2 ^ 32 ↔ a = b := by
  unfold is_int at ha hb
  constructor
  · intro h; omega
  · intro h; rw [h]

/-- The verdict of the filter on any system call: the marker test first,
then the chain of comparisons on the 32-bit patterns. -/
theorem filter_verdict (t : SyscallNumbers) (d : seccomp_data) :
    seccomp_run (filter_program t) d =
      some (if half64 (d.args 5) false = MARKER then SECCOMP_RET_ALLOW
            else if d.nr % 2 ^ 32 ∈ (inspected_syscalls t).map (· % 2 ^ 32)
              then SECCOMP_RET_TRAP else SECCOMP_RET_ALLOW) := by
  have hA : ∀ A, bpf_run (filter_program t) d 2 11 A = some SECCOMP_RET_ALLOW := fun A =>
    bpf_run_ret _ d 1 11 A _ (by rw [filter_program_eq]; rfl)
  have hT : ∀ A n, bpf_run (filter_program t) d (n + 1) 12 A = some SECCOMP_RET_TRAP :=
    fun A n => bpf_run_ret _ d n 12 A _ (by rw [filter_program_eq]; rfl)
  unfold seccomp_run
  have hlen : (filter_program t).length = 13 := rfl
  rw [hlen, bpf_run_ld _ d 12 0 0 56 (half64 (d.args 5) false)
      (by rw [filter_program_eq]; rfl) rfl,
    bpf_run_jeq _ d 11 1 _ _ 9 (by rw [filter_program_eq]; rfl)]
  by_cases hm : half64 (d.args 5) false = MARKER
  · rw [if_pos hm, if_pos (by rw [hm]; rfl)]
    exact bpf_run_ret _ d 10 11 _ _ (by rw [filter_program_eq]; rfl)
  · rw [if_neg hm, if_neg (by intro h; exact hm h)]
    rw [bpf_run_ld _ d 10 2 _ 0 (d.nr % 2 ^ 32) (by rw [filter_program_eq]; rfl) rfl,
      bpf_run_jeq _ d 9 3 _ _ 8 (by rw [filter_program_eq]; rfl),
      bpf_run_jeq _ d 8 4 _ _ 7 (by rw [filter_program_eq]; rfl),
      bpf_run_jeq _ d 7 5 _ _ 6 (by rw [filter_program_eq]; rfl),
      bpf_run_jeq _ d 6 6 _ _ 5 (by rw [filter_program_eq]; rfl),
      bpf_run_jeq _ d 5 7 _ _ 4 (by rw [filter_program_eq]; rfl),
      bpf_run_jeq _ d 4 8 _ _ 3 (by rw [filter_program_eq]; rfl),
      bpf_run_jeq _ d 3 9 _ _ 2 (by rw [filter_program_eq]; rfl),
      bpf_run_jeq _ d 2 10 _ _ 1 (by rw [filter_program_eq]; rfl),
      hA, hT, hT, hT, hT, hT, hT, hT, hT]
    simp only [inspected_syscalls, List.map, List.mem_cons, List.not_mem_nil, or_false]
    split_ifs <;> simp_all

/-- For `int` values, membership of the 32-bit pattern among the patterns of
the inspected numbers is membership among the inspected numbers. -/
theorem mem_wrap (t : SyscallNumbers) (x : Int) (ht : t.ints) (hx : is_int x) :
    x % 2 ^ 32 ∈ (inspected_syscalls t).map (· % 2 ^ 32) ↔ x ∈ inspected_syscalls t := by
  simp only [List.mem_map]
  constructor
  · rintro ⟨y, hy, h⟩
    rw [(wrap_inj y x (ht y hy) hx).mp h] at hy; exact hy
  · intro h; exact ⟨x, h, rfl⟩

/-- The sixth argument slot is read as its low 32-bit word. -/
theorem load_arg5 (d : seccomp_data) :
    load_word d (offsetof_args 5) = some (half64 (d.args 5) false) := rfl

/-- C1. Filter transparency: on a system call whose number is none of the
eight inspected numbers the filter built by `create_filter` returns ALLOW
(hence not TRAP), whatever the six arguments are. -/
theorem filter_transparency (t : SyscallNumbers) (d : seccomp_data)
    (ht : t.ints) (hnr : is_int d.nr) (h : d.nr ∉ inspected_syscalls t) :
    seccomp_run (filter_program t) d = some SECCOMP_RET_ALLOW ∧
      seccomp_run (filter_program t) d ≠ some SECCOMP_RET_TRAP := by
  have hv : seccomp_run (filter_program t) d = some SECCOMP_RET_ALLOW := by
    rw [filter_verdict]
    simp only [mem_wrap t _ ht hnr, h, if_false, ite_self]
  refine ⟨hv, ?_⟩
  rw [hv]
  decide

theorem filter_transparency_witness :
    seccomp_run (filter_program amd64_numbers) (sample_data 1 0x12345679)
        = some SECCOMP_RET_ALLOW ∧
      seccomp_run (filter_program amd64_numbers) (sample_data 1 0x12345679)
        ≠ some SECCOMP_RET_TRAP :=
  filter_transparency amd64_numbers (sample_data 1 0x12345679)
    (by decide) (by decide) (by decide)

/-- C2. Re-entry transparency: whatever the system-call number, when the
word loaded from the sixth argument slot equals `MARKER` the filter returns
ALLOW; the re-entry test is instruction 1, and the instruction its jump
offset leads to is the ALLOW return. -/
theorem reentry_transparency (t : SyscallNumbers) (d : seccomp_data)
    (h : load_word d (offsetof_args 5) = some MARKER) :
    seccomp_run (filter_program t) d = some SECCOMP_RET_ALLOW ∧
      ∃ ins, (filter_program t).get? 1 = some ins ∧
        ins = BPF_JUMP (BPF_JMP ||| BPF_JEQ ||| BPF_K) MARKER ins.jt 0 ∧
        (filter_program t).get? (1 + 1 + ins.jt)
          = some (BPF_STMT (BPF_RET ||| BPF_K) SECCOMP_RET_ALLOW) := by
  rw [load_arg5] at h
  constructor
  · rw [filter_verdict, if_pos (Option.some.inj h)]
  · exact ⟨⟨0x15, 9, 0, 0x12345678⟩, rfl, rfl, rfl⟩

theorem reentry_transparency_witness :
    seccomp_run (filter_program amd64_numbers) (sample_data 57 0x12345678)
        = some SECCOMP_RET_ALLOW ∧
      ∃ ins, (filter_program amd64_numbers).get? 1 = some ins ∧
        ins = BPF_JUMP (BPF_JMP ||| BPF_JEQ ||| BPF_K) MARKER ins.jt 0 ∧
        (filter_program amd64_numbers).get? (1 + 1 + ins.jt)
          = some (BPF_STMT (BPF_RET ||| BPF_K) SECCOMP_RET_ALLOW) :=
  reentry_transparency amd64_numbers (sample_data 57 0x12345678) (by decide)

/-- C3. Inspected system calls trap: when the number is one of the eight
inspected ones and the word of the sixth argument differs from `MARKER`, the
filter returns TRAP; entry `i` of the chain (instruction `3 + i`) compares
with `inspected_syscalls[i]`, its true-offset leads to the TRAP return and its
false-offset is 0, the next instruction. -/
theorem inspected_trap (t : SyscallNumbers) (d : seccomp_data)
    (ht : t.ints) (hnr : is_int d.nr) (h : d.nr ∈ inspected_syscalls t)
    (hm : load_word d (offsetof_args 5) ≠ some MARKER) :
    seccomp_run (filter_program t) d = some SECCOMP_RET_TRAP ∧
      ∀ i sc, (inspected_syscalls t).get? i = some sc →
        ∃ ins, (filter_program t).get? (3 + i) = some ins ∧
          ins = BPF_JUMP (BPF_JMP ||| BPF_JEQ ||| BPF_K) sc ins.jt 0 ∧
          (filter_program t).get? (3 + i + 1 + ins.jt)
            = some (BPF_STMT (BPF_RET ||| BPF_K) SECCOMP_RET_TRAP) := by
  rw [load_arg5] at hm
  constructor
  · rw [filter_verdict, if_neg (fun e => hm (by rw [e])), if_pos ((mem_wrap t _ ht hnr).mpr h)]
  · intro i sc hi
    rw [filter_program_eq]
    match i, hi with
    | 0, hi => cases hi; exact ⟨_, rfl, rfl, rfl⟩
    | 1, hi => cases hi; exact ⟨_, rfl, rfl, rfl⟩
    | 2, hi => cases hi; exact ⟨_, rfl, rfl, rfl⟩
    | 3, hi => cases hi; exact ⟨_, rfl, rfl, rfl⟩
    | 4, hi => cases hi; exact ⟨_, rfl, rfl, rfl⟩
    | 5, hi => cases hi; exact ⟨_, rfl, rfl, rfl⟩
    | 6, hi => cases hi; exact ⟨_, rfl, rfl, rfl⟩
    | 7, hi => cases hi; exact ⟨_, rfl, rfl, rfl⟩
    | n + 8, hi => cases hi

theorem inspected_trap_witness :
    seccomp_run (filter_program i386_numbers) (sample_data 120 0) = some SECCOMP_RET_TRAP ∧
      ∀ i sc, (inspected_syscalls i386_numbers).get? i = some sc →
        ∃ ins, (filter_program i386_numbers).get? (3 + i) = some ins ∧
          ins = BPF_JUMP (BPF_JMP ||| BPF_JEQ ||| BPF_K) sc ins.jt 0 ∧
          (filter_program i386_numbers).get? (3 + i + 1 + ins.jt)
            = some (BPF_STMT (BPF_RET ||| BPF_K) SECCOMP_RET_TRAP) :=
  inspected_trap i386_numbers (sample_data 120 0) (by decide) (by decide) (by decide)
    (by decide)

/-- C10. The default arm is unreachable: whenever the filter returns TRAP on
a system call, the `switch` of `handle_sigsys` selects one of its named
cases for that number, not the default arm. -/
theorem default_arm_unreachable (t : SyscallNumbers) (d : seccomp_data)
    (ht : t.ints) (hnr : is_int d.nr)
    (h : seccomp_run (filter_program t) d = some SECCOMP_RET_TRAP) :
    switch_arm t d.nr ≠ Arm.default_arm ∧ d.nr ∈ inspected_syscalls t := by
  have hmem : d.nr ∈ inspected_syscalls t := by
    rw [filter_verdict] at h
    by_contra hn
    simp only [mem_wrap t _ ht hnr, hn, if_false, ite_self] at h
    revert h
    decide
  refine ⟨?_, hmem⟩
  simp only [inspected_syscalls, List.mem_cons, List.not_mem_nil, or_false] at hmem
  unfold switch_arm
  split_ifs <;> simp_all

theorem default_arm_unreachable_witness :
    switch_arm amd64_numbers (sample_data 322 0).nr ≠ Arm.default_arm ∧
      (sample_data 322 0).nr ∈ inspected_syscalls amd64_numbers :=
  default_arm_unreachable amd64_numbers (sample_data 322 0) (by decide) (by decide)
    (by decide)

/-! ## Traces -/

theorem emit_trace (w : World) (es : List Event) : (w.emit es).trace = w.trace ++ es := rfl

theorem emit_started (w : World) (es : List Event) : (w.emit es).started = w.started := rfl

theorem emit_emit (w : World) (es fs : List Event) :
    (w.emit es).emit fs = w.emit (es ++ fs) := by
  simp [World.emit, List.append_assoc]

theorem written_append (fd : Nat) (a b : List Event) :
    written fd (a ++ b) = written fd a ++ written fd b := by
  induction a with
  | nil => simp [written]
  | cons e rest ih =>
    cases e with
    | write fd1 message =>
      simp only [List.cons_append, written]
      split
      · show message ++ written fd (rest ++ b) = _
        rw [ih, String.append_assoc]
      · exact ih
    | _ => exact ih

theorem write_reply_eq (body : String) (w : World) :
    write_reply body w = w.emit (reply_events body) := by
  simp [write_reply, print, reply_events, emit_emit]

theorem written_reply_events (body : String) :
    written STDOUT_FILENO (reply_events body) = frame body := by
  simp [written, reply_events, frame, STDOUT_FILENO, STDERR_FILENO, String.append_assoc]

/-! ## Wait statuses -/

theorem parent_branch_reportable (pid : Int) (it : Iteration) (w : World)
    (hw : 0 ≤ it.waitpid_ret) (hs : WIFEXITED it.status = true ∨ WIFSIGNALED it.status = true) :
    parent_branch pid it w =
      .returned () (w.emit (Event.waitpid pid :: reply_events (sprintf_d (reported_code it.status)))) := by
  unfold parent_branch reported_code
  simp only [not_lt.mpr hw, if_false, write_reply_eq, emit_emit, List.singleton_append]
  by_cases he : WIFEXITED it.status = true
  · simp [he]
  · rcases hs with hs | hs
    · exact absurd hs he
    · simp [he, hs]

theorem fork_calls_append (t : SyscallNumbers) (a b : List Event) :
    fork_calls t (a ++ b) = fork_calls t a + fork_calls t b := by
  simp [fork_calls, List.count_append]

theorem fork_calls_reply (t : SyscallNumbers) (pid : Int) (body : String) :
    fork_calls t (Event.waitpid pid :: reply_events body) = 0 := by
  simp [fork_calls, reply_events, List.count_cons]

theorem forkserver_loop_parent (t : SyscallNumbers) (T : Int) (iters : List Iteration) :
    ∀ w : World, (∀ it ∈ iters, it.reportable) →
      fork_calls t (forkserver_loop t T iters w).world.trace
          = fork_calls t w.trace + iters.length ∧
        written STDOUT_FILENO (forkserver_loop t T iters w).world.trace
          = written STDOUT_FILENO w.trace ++ frames (iters.map reply_body) := by
  induction iters with
  | nil =>
    intro w _
    simp [forkserver_loop, Outcome.world, emit_trace, fork_calls_append, written_append,
      frames, written, fork_calls, List.count_cons]
  | cons it rest ih =>
    intro w h
    obtain ⟨hp, hw, hs⟩ := h it (List.mem_cons_self _ _)
    have hrest : ∀ x ∈ rest, x.reportable := fun x hx => h x (List.mem_cons_of_mem _ hx)
    simp only [forkserver_loop, if_neg hp, parent_branch_reportable _ it _ hw hs, emit_emit]
    obtain ⟨h1, h2⟩ := ih (w.emit ([Event.read 1] ++ [Event.syscall t.SYS_fork 0 0 0 0 0 MARKER] ++
      Event.waitpid (to_int (libc_syscall it.fork_raw)) ::
        reply_events (sprintf_d (reported_code it.status)))) hrest
    constructor
    · rw [h1, emit_trace, fork_calls_append]
      simp only [List.append_assoc, List.singleton_append, List.cons_append, List.nil_append,
        List.length_cons]
      have : fork_calls t (Event.read 1 :: Event.syscall t.SYS_fork 0 0 0 0 0 MARKER ::
          Event.waitpid (to_int (libc_syscall it.fork_raw)) ::
            reply_events (sprintf_d (reported_code it.status))) = 1 := by
        simp [fork_calls, reply_events, List.count_cons]
      rw [this]; omega
    · rw [h2, emit_trace, written_append]
      simp only [List.append_assoc, List.singleton_append, List.cons_append, List.nil_append,
        List.map_cons, frames]
      have : written STDOUT_FILENO (Event.read 1 :: Event.syscall t.SYS_fork 0 0 0 0 0 MARKER ::
          Event.waitpid (to_int (libc_syscall it.fork_raw)) ::
            reply_events (sprintf_d (reported_code it.status))) = frame (reply_body it) :=
        written_reply_events _
      rw [this, String.append_assoc]

/-- C7. One command, one fork, one reply, in order: when the fork server
starts and its command loop reads the bytes of `iters` (of any values), each
iteration running in the parent with a reportable wait status, the process
makes exactly `iters.length` fork calls and writes to standard output the
frame of `INIT` followed by the frames of the exit codes, in the order of the
iterations; with 1000 iterations whose children all exit 0 these are the
frame of `INIT` and 1000 frames of `0`. -/
theorem one_command_one_reply (t : SyscallNumbers) (T : Int) (iters : List Iteration)
    (w : World) (hst : w.started = false) (h : ∀ it ∈ iters, it.reportable) :
    fork_calls t (start_forkserver t T iters w).world.trace
        = fork_calls t w.trace + iters.length ∧
      written STDOUT_FILENO (start_forkserver t T iters w).world.trace
        = written STDOUT_FILENO w.trace ++ frames ("INIT" :: iters.map reply_body) ∧
      (iters.length = 1000 → (∀ it ∈ iters, it.status = 0) →
        written STDOUT_FILENO (start_forkserver t T iters w).world.trace
          = written STDOUT_FILENO w.trace ++ frames ("INIT" :: List.replicate 1000 "0")) := by
  have key : fork_calls t (start_forkserver t T iters w).world.trace
        = fork_calls t w.trace + iters.length ∧
      written STDOUT_FILENO (start_forkserver t T iters w).world.trace
        = written STDOUT_FILENO w.trace ++ frames ("INIT" :: iters.map reply_body) := by
    simp only [start_forkserver, hst, Bool.false_eq_true, if_false, write_reply_eq, print, emit_emit]
    obtain ⟨h1, h2⟩ := forkserver_loop_parent t T iters
      (({ w with started := true } : World).emit
        ([Event.write STDERR_FILENO banner] ++ reply_events "INIT")) h
    constructor
    · rw [h1, emit_trace, fork_calls_append]
      have : fork_calls t ([Event.write STDERR_FILENO banner] ++ reply_events "INIT") = 0 := by
        simp [fork_calls, reply_events, List.count_cons]
      rw [this]; rfl
    · rw [h2, emit_trace, written_append]
      have : written STDOUT_FILENO ([Event.write STDERR_FILENO banner] ++ reply_events "INIT")
          = frame "INIT" := written_reply_events _
      rw [this, frames, String.append_assoc]
  refine ⟨key.1, key.2, ?_⟩
  intro hlen hzero
  rw [key.2]
  have : iters.map reply_body = List.replicate 1000 "0" := by
    rw [List.eq_replicate_iff]
    refine ⟨by rw [List.length_map, hlen], ?_⟩
    intro b hb
    obtain ⟨it, hit, rfl⟩ := List.mem_map.mp hb
    unfold reply_body
    rw [hzero it hit]
    rfl
  rw [this]

theorem one_command_one_reply_witness :
    fork_calls amd64_numbers
        (start_forkserver amd64_numbers 5 thousand_commands ⟨false, []⟩).world.trace = 1000 ∧
      written STDOUT_FILENO
        (start_forkserver amd64_numbers 5 thousand_commands ⟨false, []⟩).world.trace
        = written STDOUT_FILENO [] ++ frames ("INIT" :: List.replicate 1000 "0") :=
  have hrep : ∀ it ∈ thousand_commands, it.reportable := fun it hit => by
    rw [List.eq_of_mem_replicate hit]; decide
  have h := one_command_one_reply amd64_numbers 5 thousand_commands ⟨false, []⟩ rfl hrep
  ⟨h.1.trans (by simp [thousand_commands, fork_calls]),
    h.2.2 (List.length_replicate _ _) (fun it hit => by rw [List.eq_of_mem_replicate hit])⟩

/-! ## At most one start of the fork server -/

theorem same_refl (w : World) : same w w := ⟨rfl, rfl, rfl⟩

theorem same_trans {a b c : World} (h1 : same a b) (h2 : same b c) : same a c :=
  ⟨h2.1.trans h1.1, h2.2.1.trans h1.2.1, h2.2.2.trans h1.2.2⟩

theorem same_emit (w : World) (es : List Event) (h : quiet es) : same w (w.emit es) := by
  refine ⟨rfl, ?_, ?_⟩
  · simp only [emit_trace, banner_writes, List.count_append]
    have := h.1; unfold banner_writes at this; omega
  · simp only [emit_trace, init_writes, List.count_append]
    have := h.2; unfold init_writes at this; omega

theorem same_once {a b c : World} (h1 : same a b) (h2 : once b c) : once a c := by
  rcases h2 with h2 | ⟨h3, h4, h5, h6⟩
  · exact Or.inl (same_trans h1 h2)
  · exact Or.inr ⟨by rw [← h1.1]; exact h3, h4, by rw [h5, h1.2.1], by rw [h6, h1.2.2]⟩

theorem once_same {a b c : World} (h1 : once a b) (h2 : same b c) : once a c := by
  rcases h1 with h1 | ⟨h3, h4, h5, h6⟩
  · exact Or.inl (same_trans h1 h2)
  · exact Or.inr ⟨h3, by rw [h2.1]; exact h4, by rw [h2.2.1, h5], by rw [h2.2.2, h6]⟩

theorem WEXITSTATUS_lt (s : Nat) : WEXITSTATUS s < 256 := by
  unfold WEXITSTATUS
  rw [Nat.shiftRight_eq_div_pow]
  have : s &&& 0xff00 ≤ 0xff00 := Nat.and_le_right
  omega

theorem WTERMSIG_lt (s : Nat) : WTERMSIG s < 256 := by
  unfold WTERMSIG
  have : s &&& 0x7f ≤ 0x7f := Nat.and_le_right
  omega

theorem repr_ne_INIT : ∀ n, n < 256 → Nat.repr n ≠ "INIT" := by
  decide

theorem sprintf_d_ne_INIT (n : Nat) (h : n < 256) : sprintf_d (n : Int) ≠ "INIT" :=
  repr_ne_INIT n h

theorem quiet_reply (pid : Int) (body : String) (h : body ≠ "INIT") :
    quiet (Event.waitpid pid :: reply_events body) := by
  constructor
  · simp [banner_writes, reply_events, List.count_cons, STDOUT_FILENO, STDERR_FILENO]
    decide
  · simp [init_writes, reply_events, List.count_cons, STDOUT_FILENO, STDERR_FILENO, h]
    decide

theorem parent_branch_same (pid : Int) (it : Iteration) (w : World) :
    same w (parent_branch pid it w).world := by
  unfold parent_branch
  simp only [write_reply_eq, emit_emit]
  split_ifs
  · exact same_emit _ _ (by constructor <;> simp [banner_writes, init_writes, List.count_cons])
  · exact same_emit _ _ (quiet_reply pid _ (sprintf_d_ne_INIT _ (WEXITSTATUS_lt _)))
  · exact same_emit _ _ (quiet_reply pid _ (sprintf_d_ne_INIT _ (WTERMSIG_lt _)))
  · exact same_emit _ _ (by constructor <;> simp [banner_writes, init_writes, List.count_cons])

theorem child_branch_same (T : Int) (it : Iteration) (w : World) :
    same w (child_branch T it w).world := by
  unfold child_branch
  simp only [emit_emit]
  split_ifs <;>
    exact same_emit _ _ (by constructor <;> simp [banner_writes, init_writes, List.count_cons])

theorem forkserver_loop_same (t : SyscallNumbers) (T : Int) (iters : List Iteration) :
    ∀ w : World, same w (forkserver_loop t T iters w).world := by
  induction iters with
  | nil =>
    intro w
    exact same_emit _ _ (by constructor <;> simp [banner_writes, init_writes, List.count_cons])
  | cons it rest ih =>
    intro w
    have h0 : same w (w.emit ([Event.read 1] ++ [Event.syscall t.SYS_fork 0 0 0 0 0 MARKER])) :=
      same_emit _ _ (by constructor <;> simp [banner_writes, init_writes, List.count_cons])
    simp only [forkserver_loop, emit_emit]
    split_ifs
    · exact same_trans h0 (child_branch_same T it _)
    · have hp := parent_branch_same (to_int (libc_syscall it.fork_raw)) it
        (w.emit ([Event.read 1] ++ [Event.syscall t.SYS_fork 0 0 0 0 0 MARKER]))
      cases hpb : parent_branch (to_int (libc_syscall it.fork_raw)) it
        (w.emit ([Event.read 1] ++ [Event.syscall t.SYS_fork 0 0 0 0 0 MARKER])) with
      | aborted w1 =>
        rw [hpb] at hp
        exact same_trans h0 hp
      | returned u w1 =>
        rw [hpb] at hp
        exact same_trans h0 (same_trans hp (ih w1))

theorem start_forkserver_once (t : SyscallNumbers) (T : Int) (iters : List Iteration)
    (w : World) : once w (start_forkserver t T iters w).world := by
  unfold start_forkserver
  by_cases hs : w.started = true
  · simp only [hs, if_true]
    exact Or.inl (same_refl w)
  · have hf : w.started = false := by simpa using hs
    simp only [hf, Bool.false_eq_true, if_false, write_reply_eq, print, emit_emit]
    have hl := forkserver_loop_same t T iters
      (({ w with started := true } : World).emit
        ([Event.write STDERR_FILENO banner] ++ reply_events "INIT"))
    refine Or.inr ⟨hf, ?_, ?_, ?_⟩
    · rw [hl.1]; rfl
    · rw [hl.2.1, emit_trace]
      simp [banner_writes, reply_events, List.count_append, List.count_cons, STDOUT_FILENO,
        STDERR_FILENO]
      decide
    · rw [hl.2.2, emit_trace]
      simp [init_writes, reply_events, List.count_append, List.count_cons, STDOUT_FILENO,
        STDERR_FILENO]
      decide

theorem get_file_id_same (fs : FileSystem) (name : Int) (force : Bool) (w : World) :
    same w (get_file_id fs name force w).world := by
  unfold get_file_id
  simp only [emit_emit]
  split_ifs <;>
    exact same_emit _ _ (by constructor <;> simp [banner_writes, init_writes, List.count_cons])

theorem is_input_name_same (ids : List file_id) (fs : FileSystem) (name : Int) (w : World) :
    same w (is_input_name ids fs name w).world := by
  have h := get_file_id_same fs name false w
  unfold is_input_name
  cases hg : get_file_id fs name false w with
  | aborted w1 => rw [hg] at h; exact h
  | returned id w1 => rw [hg] at h; exact h

theorem trigger_check_once (c : Config) (env : TrapEnv) (format : String) (name : Int)
    (w : World) : once w (trigger_check c env format name w).world := by
  have h := is_input_name_same c.input_ids env.fs name w
  unfold trigger_check
  cases hg : is_input_name c.input_ids env.fs name w with
  | aborted w1 => rw [hg] at h; exact Or.inl h
  | returned b w1 =>
    rw [hg] at h
    cases b with
    | false => exact Or.inl h
    | true =>
      simp only [if_true]
      exact same_once (same_trans h (same_emit _ _
        (by constructor <;> simp [banner_writes, init_writes, List.count_cons])))
        (start_forkserver_once _ _ _ _)

theorem handle_switch_once (c : Config) (env : TrapEnv) (gregs : Gregs) (sc_num : Int)
    (w : World) : once w (handle_switch c env gregs sc_num w).world := by
  unfold handle_switch
  cases switch_arm c.t sc_num with
  | case_open => exact trigger_check_once _ _ _ _ _
  | case_openat => exact trigger_check_once _ _ _ _ _
  | case_stat => exact trigger_check_once _ _ _ _ _
  | case_exec =>
    exact Or.inl (same_emit _ _
      (by constructor <;> simp [banner_writes, init_writes, List.count_cons]))
  | case_spawn =>
    exact Or.inl (same_emit _ _
      (by constructor <;> simp [banner_writes, init_writes, List.count_cons]))
  | default_arm => exact start_forkserver_once _ _ _ _

theorem handle_sigsys_once (c : Config) (env : TrapEnv) (gregs : Gregs) (w : World) :
    once w (handle_sigsys c env gregs w).world := by
  have h := handle_switch_once c env gregs (to_int (gregs (SC_NUM_REG c.arch))) w
  simp only [handle_sigsys]
  cases hg : handle_switch c env gregs (to_int (gregs (SC_NUM_REG c.arch))) w with
  | aborted w1 => rw [hg] at h; exact h
  | returned u w1 =>
    rw [hg] at h
    exact once_same h (same_emit _ _
      (by constructor <;> simp [banner_writes, init_writes, List.count_cons]))

theorem started_inv_once {w w1 : World} (hi : started_inv w) (h : once w w1) :
    started_inv w1 := by
  obtain ⟨h0, h1, h2⟩ := hi
  rcases h with ⟨e1, e2, e3⟩ | ⟨hf, ht, e2, e3⟩
  · refine ⟨fun hs => ?_, by omega, by omega⟩
    rw [e2, e3]; exact h0 (by rw [← e1]; exact hs)
  · obtain ⟨z1, z2⟩ := h0 hf
    refine ⟨fun hs => ?_, by omega, by omega⟩
    rw [ht] at hs; exact absurd hs (by decide)

theorem run_traps_inv (c : Config) (traps : List Trap) :
    ∀ w : World, started_inv w → started_inv (run_traps c traps w) := by
  induction traps with
  | nil => intro w h; exact h
  | cons tp rest ih =>
    intro w h
    have ho := handle_sigsys_once c tp.env tp.gregs w
    unfold run_traps
    cases hg : handle_sigsys c tp.env tp.gregs w with
    | aborted w1 => rw [hg] at ho; exact started_inv_once h ho
    | returned g w1 => rw [hg] at ho; exact ih w1 (started_inv_once h ho)

theorem forkserver_loop_started (t : SyscallNumbers) (T : Int) (iters : List Iteration)
    (w : World) : (forkserver_loop t T iters w).world.started = w.started :=
  (forkserver_loop_same t T iters w).1

/-- C5. At-most-once fork server and child isolation: in every world where
`started` is true a call of `start_forkserver` returns at once, leaving the
world (flag and trace) as it was, so nothing is written, read or forked;
whenever `start_forkserver` returns (as it does in a forked child) the flag is
true; and over any sequence of handler invocations of a process in which the
flag is false only while neither the banner nor `INIT` has been written (as
at load time) and each has been written at most once, the banner and the
`INIT` body are each written at most once. -/
theorem at_most_once (c : Config) (iters : List Iteration) (traps : List Trap)
    (w : World) :
    (w.started = true →
        start_forkserver c.t c.fork_child_timeout iters w = .returned () w) ∧
      (∀ u w1, start_forkserver c.t c.fork_child_timeout iters w = .returned u w1 →
        w1.started = true) ∧
      (started_inv w →
        banner_writes (run_traps c traps w).trace ≤ 1 ∧
        init_writes (run_traps c traps w).trace ≤ 1) := by
  refine ⟨?_, ?_, ?_⟩
  · intro hs
    simp [start_forkserver, hs]
  · intro u w1 hr
    by_cases hs : w.started = true
    · simp [start_forkserver, hs] at hr
      rw [← hr]; exact hs
    · have hf : w.started = false := by simpa using hs
      have hl := forkserver_loop_started c.t c.fork_child_timeout iters
        (write_reply "INIT" (print STDERR_FILENO banner { w with started := true }))
      simp only [start_forkserver, hf, Bool.false_eq_true, if_false] at hr
      rw [hr] at hl
      exact hl
  · intro hinv
    exact (run_traps_inv c traps w hinv).2

theorem at_most_once_witness :
    start_forkserver sample_config.t sample_config.fork_child_timeout sample_env.iters
        ⟨true, []⟩ = .returned () ⟨true, []⟩ ∧
      banner_writes (run_traps sample_config
        [⟨sample_gregs 2 100 0, sample_env⟩, ⟨sample_gregs 2 100 0, sample_env⟩]
        ⟨false, []⟩).trace ≤ 1 ∧
      init_writes (run_traps sample_config
        [⟨sample_gregs 2 100 0, sample_env⟩, ⟨sample_gregs 2 100 0, sample_env⟩]
        ⟨false, []⟩).trace ≤ 1 :=
  ⟨(at_most_once sample_config sample_env.iters [] ⟨true, []⟩).1 rfl,
    (at_most_once sample_config sample_env.iters
      [⟨sample_gregs 2 100 0, sample_env⟩, ⟨sample_gregs 2 100 0, sample_env⟩]
      ⟨false, []⟩).2.2 ⟨fun _ => ⟨rfl, rfl⟩, by decide, by decide⟩⟩

/-- Two traps on `open` of the registered input do write the banner and
`INIT`, once: the first trap starts the server, the second finds it started. -/
theorem two_triggers_sample :
    banner_writes (run_traps sample_config
        [⟨sample_gregs 2 100 0, sample_env⟩, ⟨sample_gregs 2 100 0, sample_env⟩]
        ⟨false, []⟩).trace = 1 ∧
      init_writes (run_traps sample_config
        [⟨sample_gregs 2 100 0, sample_env⟩, ⟨sample_gregs 2 100 0, sample_env⟩]
        ⟨false, []⟩).trace = 1 := by
  decide

/-! ## The registry -/

theorem scan_input_ids_iff (ids : List file_id) (id : file_id) :
    scan_input_ids ids id = true ↔ ∃ e ∈ ids, e.dev = id.dev ∧ e.inode = id.inode := by
  induction ids with
  | nil => simp [scan_input_ids]
  | cons e rest ih =>
    unfold scan_input_ids
    by_cases h : e.dev = id.dev ∧ e.inode = id.inode
    · simp only [h, and_self, if_true, List.mem_cons, exists_eq_or_imp, true_or]
    · simp only [h, if_false, ih, List.mem_cons, exists_eq_or_imp, false_or]

theorem initialize_inputs_loop_length (getenv : Nat → Option Int) (fs : FileSystem) :
    ∀ (fuel k : Nat) (ids : List file_id) (w : World) (ids1 : List file_id) (w1 : World),
      initialize_inputs_loop getenv fs fuel k ids w = .returned ids1 w1 →
        ids1.length ≤ ids.length + fuel := by
  intro fuel
  induction fuel with
  | zero =>
    intro k ids w ids1 w1 h
    simp only [initialize_inputs_loop, Outcome.returned.injEq] at h
    rw [← h.1]; omega
  | succ n ih =>
    intro k ids w ids1 w1 h
    unfold initialize_inputs_loop at h
    cases hg : getenv k with
    | none =>
      simp only [hg, Outcome.returned.injEq] at h
      rw [← h.1]; omega
    | some file_name =>
      simp only [hg] at h
      cases hf : get_file_id fs file_name true
          (w.emit [Event.fprintf "Fetched input name #%d: %s\n" [(k : Int), file_name]]) with
      | aborted w2 => rw [hf] at h; cases h
      | returned id w2 =>
        rw [hf] at h
        have := ih _ _ _ _ _ h
        simp only [List.length_append, List.length_singleton] at this
        omega

theorem initialize_inputs_loop_nonzero (getenv : Nat → Option Int) (fs : FileSystem)
    (hfs : real_identities fs) :
    ∀ (fuel k : Nat) (ids : List file_id) (w : World) (ids1 : List file_id) (w1 : World),
      initialize_inputs_loop getenv fs fuel k ids w = .returned ids1 w1 →
        (∀ e ∈ ids, ¬ (e.dev = 0 ∧ e.inode = 0)) →
          ∀ e ∈ ids1, ¬ (e.dev = 0 ∧ e.inode = 0) := by
  intro fuel
  induction fuel with
  | zero =>
    intro k ids w ids1 w1 h hids
    simp only [initialize_inputs_loop, Outcome.returned.injEq] at h
    rw [← h.1]; exact hids
  | succ n ih =>
    intro k ids w ids1 w1 h hids
    unfold initialize_inputs_loop at h
    cases hg : getenv k with
    | none =>
      simp only [hg, Outcome.returned.injEq] at h
      rw [← h.1]; exact hids
    | some file_name =>
      simp only [hg] at h
      cases hf : get_file_id fs file_name true
          (w.emit [Event.fprintf "Fetched input name #%d: %s\n" [(k : Int), file_name]]) with
      | aborted w2 => rw [hf] at h; cases h
      | returned id w2 =>
        rw [hf] at h
        refine ih _ _ _ _ _ h ?_
        intro e he
        rcases List.mem_append.mp he with he | he
        · exact hids e he
        · rw [List.mem_singleton] at he
          subst he
          unfold get_file_id at hf
          by_cases hs : stat_ret fs file_name = 0
          · simp only [hs, if_true, Outcome.returned.injEq] at hf
            rw [← hf.1]
            exact hfs file_name hs
          · simp only [hs, if_false, if_true] at hf
            cases hf

/-- C6. Identity-based membership: for a registry populated by
`initialize_inputs` (on a file system whose files have real identities) and
for every path, `is_input_name` returns, and it returns true exactly when
`stat` on the path succeeds and the `(device, inode)` pair it yields equals
the pair stored for some registered input; in particular it returns false
when `stat` fails.  The registry holds at most `MAX_INPUTS` pairs. -/
theorem identity_membership (getenv : Nat → Option Int) (fs0 : FileSystem) (w0 : World)
    (ids : List file_id) (w1 : World) (hfs0 : real_identities fs0)
    (hinit : initialize_inputs getenv fs0 w0 = .returned ids w1)
    (fs : FileSystem) (name : Int) (w : World) :
    ∃ b w2, is_input_name ids fs name w = .returned b w2 ∧
      (b = true ↔ stat_ret fs name = 0 ∧
        ∃ e ∈ ids, e.dev = (fs name).st_dev ∧ e.inode = (fs name).st_ino) ∧
      (stat_ret fs name ≠ 0 → b = false) ∧
      ids.length ≤ MAX_INPUTS := by
  have hlen : ids.length ≤ MAX_INPUTS := by
    have := initialize_inputs_loop_length getenv fs0 MAX_INPUTS 0 [] w0 ids w1 hinit
    simpa using this
  have hnz : ∀ e ∈ ids, ¬ (e.dev = 0 ∧ e.inode = 0) :=
    initialize_inputs_loop_nonzero getenv fs0 hfs0 MAX_INPUTS 0 [] w0 ids w1 hinit
      (fun e he => absurd he (List.not_mem_nil e))
  have hzero : scan_input_ids ids { dev := 0, inode := 0 } = false := by
    cases hsc : scan_input_ids ids { dev := 0, inode := 0 } with
    | false => rfl
    | true =>
      obtain ⟨e, he, h1, h2⟩ := (scan_input_ids_iff ids _).mp hsc
      exact absurd ⟨h1, h2⟩ (hnz e he)
  by_cases hs : stat_ret fs name = 0
  · refine ⟨scan_input_ids ids { dev := (fs name).st_dev, inode := (fs name).st_ino },
      w.emit [Event.stat name 0 0 0 MARKER], ?_, ?_, ?_, hlen⟩
    · simp only [is_input_name, get_file_id, hs, if_true]
    · rw [scan_input_ids_iff]
      simp only [hs, true_and]
    · intro h; exact absurd hs h
  · refine ⟨false, (w.emit [Event.stat name 0 0 0 MARKER]).emit
      [Event.fprintf "Cannot stat: error %d\n" [stat_ret fs name]], ?_, ?_, ?_, hlen⟩
    · simp only [is_input_name, get_file_id, hs, if_false, Bool.false_eq_true, hzero]
    · simp only [Bool.false_eq_true, hs, false_and]
    · intro _; rfl

theorem sample_fs_real : real_identities sample_fs := by
  intro name hs
  by_cases hn : name = 100
  · simp [sample_fs, hn]
  · exfalso
    simp only [stat_ret, sample_fs, hn, if_false] at hs
    revert hs
    decide

theorem identity_membership_witness :
    ∃ b w2, is_input_name [⟨8, 42⟩] sample_fs 100 ⟨false, []⟩ = .returned b w2 ∧
      (b = true ↔ stat_ret sample_fs 100 = 0 ∧
        ∃ e ∈ [(⟨8, 42⟩ : file_id)], e.dev = (sample_fs 100).st_dev ∧
          e.inode = (sample_fs 100).st_ino) ∧
      (stat_ret sample_fs 100 ≠ 0 → b = false) ∧
      [(⟨8, 42⟩ : file_id)].length ≤ MAX_INPUTS :=
  identity_membership sample_getenv sample_fs ⟨false, []⟩ [⟨8, 42⟩]
    ⟨false, [Event.fprintf "Fetched input name #%d: %s\n" [0, 100],
      Event.stat 100 0 0 0 MARKER]⟩ sample_fs_real rfl sample_fs 100 ⟨false, []⟩

/-- Samples of `is_input_name` with the registry of the sample file system:
the registered path is found, a path that does not resolve is not. -/
theorem is_input_name_samples :
    (is_input_name [⟨8, 42⟩] sample_fs 100 ⟨false, []⟩).val? = some true ∧
      (is_input_name [⟨8, 42⟩] sample_fs 200 ⟨false, []⟩).val? = some false := by
  decide

/-! ## The trap handler -/

/-- C8. Fatal runtime violations: when the trapped system-call number is
`execve`, `execveat`, `fork`, `vfork` or `clone`, `handle_sigsys` aborts the
process whatever the registers and the `started` flag are: it ends in
`abort` after one message on standard error, with the flag unchanged, no
system call issued and no register array handed back. -/
theorem fatal_violations (c : Config) (env : TrapEnv) (gregs : Gregs) (w : World)
    (hd : c.t.distinct)
    (h : to_int (gregs (SC_NUM_REG c.arch)) ∈
      [c.t.SYS_execve, c.t.SYS_execveat, c.t.SYS_fork, c.t.SYS_vfork, c.t.SYS_clone]) :
    ∃ message, handle_sigsys c env gregs w =
      .aborted (w.emit [Event.fprintf message [], Event.abort]) := by
  simp only [SyscallNumbers.distinct, inspected_syscalls, List.nodup_cons, List.mem_cons,
    List.not_mem_nil, or_false, not_or, List.nodup_nil, and_true] at hd
  simp only [List.mem_cons, List.not_mem_nil, or_false] at h
  obtain ⟨⟨o1, o2, o3, o4, o5, o6, o7⟩, ⟨p2, p3, p4, p5, p6, p7⟩, ⟨q3, q4, q5, q6, q7⟩, -⟩ := hd
  have harm : switch_arm c.t (to_int (gregs (SC_NUM_REG c.arch))) = Arm.case_exec ∨
      switch_arm c.t (to_int (gregs (SC_NUM_REG c.arch))) = Arm.case_spawn := by
    unfold switch_arm
    rcases h with h | h | h | h | h <;> rw [h] <;> split_ifs <;> simp_all
  rcases harm with harm | harm
  · exact ⟨"Process is trying to call exec(...), exiting.\n",
      by simp only [handle_sigsys, handle_switch, harm]⟩
  · exact ⟨"Process is trying to spawn a thread or a subprocess, exiting.\n",
      by simp only [handle_sigsys, handle_switch, harm]⟩

theorem fatal_violations_witness :
    ∃ message, handle_sigsys sample_config sample_env (sample_gregs 59 100 0) ⟨true, []⟩ =
      .aborted ((⟨true, []⟩ : World).emit [Event.fprintf message [], Event.abort]) :=
  fatal_violations sample_config sample_env (sample_gregs 59 100 0) ⟨true, []⟩
    (by decide) (by decide)

/-- The part of C9 that holds: for a trapped `open`, `openat` or `stat`
whose path is not a registered input, `handle_sigsys` returns after issuing
the same system-call number with the same five argument registers and
`MARKER` as sixth argument, and stores in the return register what the C
library function `syscall` returned for it. -/
theorem reexecution_same_call (c : Config) (env : TrapEnv) (gregs : Gregs) (w w1 : World)
    (h : to_int (gregs (SC_NUM_REG c.arch)) ∈ [c.t.SYS_open, c.t.SYS_openat, c.t.SYS_stat])
    (hn : is_input_name c.input_ids env.fs
      (gregs (path_register c (to_int (gregs (SC_NUM_REG c.arch))))) w = .returned false w1) :
    handle_sigsys c env gregs w =
      .returned
        (Function.update gregs (RET_REG_1 c.arch)
          (libc_syscall (env.kernel (to_int (gregs (SC_NUM_REG c.arch)))
            (gregs (ARG_REG_1 c.arch)) (gregs (ARG_REG_2 c.arch)) (gregs (ARG_REG_3 c.arch))
            (gregs (ARG_REG_4 c.arch)) (gregs (ARG_REG_5 c.arch)) MARKER)))
        (w1.emit [Event.syscall (to_int (gregs (SC_NUM_REG c.arch)))
          (gregs (ARG_REG_1 c.arch)) (gregs (ARG_REG_2 c.arch)) (gregs (ARG_REG_3 c.arch))
          (gregs (ARG_REG_4 c.arch)) (gregs (ARG_REG_5 c.arch)) MARKER]) := by
  simp only [List.mem_cons, List.not_mem_nil, or_false] at h
  simp only [handle_sigsys]
  generalize to_int (gregs (SC_NUM_REG c.arch)) = sc at h hn ⊢
  by_cases h1 : sc = c.t.SYS_open
  · subst h1
    simp only [path_register, if_true] at hn
    simp only [handle_switch, switch_arm, if_true, trigger_check, hn, Bool.false_eq_true,
      if_false]
  · by_cases h2 : sc = c.t.SYS_openat
    · subst h2
      simp only [path_register, h1, if_true, if_false] at hn
      simp only [handle_switch, switch_arm, h1, if_true, if_false, trigger_check, hn,
        Bool.false_eq_true]
    · have h3 : sc = c.t.SYS_stat := by
        rcases h with h | h | h
        · exact absurd h h1
        · exact absurd h h2
        · exact h
      subst h3
      simp only [path_register, h1, h2, if_false] at hn
      simp only [handle_switch, switch_arm, h1, h2, if_true, if_false, trigger_check, hn,
        Bool.false_eq_true]

/-- Samples of the text `sprintf` produces for `%d`. -/
theorem sprintf_d_samples :
    sprintf_d 0 = "0" ∧ sprintf_d 9 = "9" ∧ sprintf_d 137 = "137" ∧ sprintf_d 255 = "255" ∧
      sprintf_d (-1) = "-1" := by
  decide

/-- The C library function `syscall` passes on every result of the kernel
that is not an error number. -/
theorem libc_syscall_success (raw : Int) (h : ¬ (-4095 ≤ raw ∧ raw ≤ -1)) :
    libc_syscall raw = raw := by
  simp only [libc_syscall, h, if_false]

/-- The C library function `syscall` turns every error number of the kernel
into `-1`. -/
theorem libc_syscall_error (raw : Int) (h : -4095 ≤ raw ∧ raw ≤ -1) :
    libc_syscall raw = -1 := by
  simp only [libc_syscall, h, and_self, if_true]

/-- C9 fails on the code for a failing system call: a trapped `open` of a
path that does not exist (and is not a registered input) is re-executed, the
kernel answers `-2` (`ENOENT`), which is what the host would have received
without interception, and `handle_sigsys` stores `-1` in the return
register. -/
theorem reexecution_error_result :
    ((handle_sigsys sample_config sample_env (sample_gregs 2 200 0) ⟨false, []⟩).val?.map
        (fun g => g (RET_REG_1 sample_config.arch))) = some (-1) ∧
      sample_env.kernel 2 200 0 0 0 0 0 = -2 ∧
      (handle_sigsys sample_config sample_env (sample_gregs 2 200 0) ⟨false, []⟩).world.trace =
        [Event.stat 200 0 0 0 MARKER, Event.fprintf "Cannot stat: error %d\n" [-1],
         Event.syscall 2 200 0 0 0 0 MARKER] := by
  refine ⟨by decide, rfl, by decide⟩

end ForkSrv
